import Mathlib

/-!
Shallow embedding of the lxcri (crio-lxc) container runtime configuration
and lifecycle code (src/create.go, src/runtime.go, src/unnamed/part_000),
together with theorems settling the specification claims.

Conventions of the embedding:
* `SetConfigItem(key, val)` is modelled as appending the pair `(key, val)`
  to a list of directives; it never fails (liblxc-level failures are out of
  scope of the configuration logic being verified).
* Fallible Go functions return `Except String α`.
* Side effects on the filesystem and on subprocesses are modelled by
  explicit environment records whose fields hold the results of the
  corresponding calls, and by trace records listing which steps ran.
-/

namespace Lxcri

/-- Whether the first character list is a prefix of the second. -/
def isPrefixList : List Char → List Char → Bool
  | [], _ => true
  | _ :: _, [] => false
  | a :: as, b :: bs => a == b && isPrefixList as bs

/-- Go `strings.TrimPrefix s pre`: `s` without the leading `pre`, or `s`
unchanged when `pre` is not a prefix of `s`. -/
def trimPrefix (s pre : String) : String :=
  if isPrefixList pre.data s.data then ⟨s.data.drop pre.data.length⟩ else s

/-- Go `strings.ToLower` (ASCII case mapping, which covers every name the
code normalizes). -/
def strToLower (s : String) : String := ⟨s.data.map Char.toLower⟩

/-! ## Resource limits (src/create.go, configureContainer lines 206-221) -/

/-- An OCI `specs.POSIXRlimit`: a limit type name with soft and hard values. -/
structure POSIXRlimit where
  type : String
  soft : Nat
  hard : Nat
deriving DecidableEq, Repr

/-- Normalized limit name: lower-cased, with a leading `rlimit_` removed
(Go: `strings.TrimPrefix(strings.ToLower(limit.Type), "rlimit_")`). -/
def rlimitName (l : POSIXRlimit) : String :=
  trimPrefix (strToLower l.type) "rlimit_"

/-- Value emitted for a limit (Go: `fmt.Sprintf("%d:%d", limit.Soft, limit.Hard)`). -/
def rlimitValue (l : POSIXRlimit) : String :=
  toString l.soft ++ ":" ++ toString l.hard

/-- Directive emitted for a limit: `lxc.prlimit.<name> = <soft>:<hard>`. -/
def rlimitDirective (l : POSIXRlimit) : String × String :=
  ("lxc.prlimit." ++ rlimitName l, rlimitValue l)

/-- The rlimit loop of `configureContainer` (src/create.go lines 208-221):
walks the spec's rlimits keeping the list of names already seen; a name seen
twice aborts with an error, every other limit appends its directive before
the loop advances.  The second component is the directive list as mutated so
far (directives emitted before the error remain, as in the Go code where
`SetConfigItem` has already run). -/
def configureRlimitsLoop : List POSIXRlimit → List String → List (String × String) →
    Option String × List (String × String)
  | [], _, acc => (none, acc)
  | l :: rest, seenLimits, acc =>
    if seenLimits.contains (rlimitName l) then
      (some ("duplicate resource limit " ++ l.type), acc)
    else
      configureRlimitsLoop rest (seenLimits ++ [rlimitName l]) (acc ++ [rlimitDirective l])

/-- Rlimit processing as entered from `configureContainer`: empty seen-list
and no limit directives emitted yet. -/
def configureRlimits (rlimits : List POSIXRlimit) : Option String × List (String × String) :=
  configureRlimitsLoop rlimits [] []

/-! ## AppArmor (src/create.go lines 142-148 and configureApparmor lines 270-277) -/

/-- The `configureApparmor` function (src/create.go lines 270-277): the
profile directive value is the spec's profile, defaulting to `unconfined`
when the spec leaves it empty. -/
def configureApparmor (apparmorProfile : String) : String × String :=
  let aaprofile := if apparmorProfile = "" then "unconfined" else apparmorProfile
  ("lxc.apparmor.profile", aaprofile)

/-- The AppArmor branch of `configureContainer` (src/create.go lines 142-148):
with the feature enabled, `configureApparmor` emits the profile directive;
with the feature disabled, only a warning is logged (second component) and no
directive is emitted. -/
def apparmorDirectives (featureApparmor : Bool) (apparmorProfile : String) :
    List (String × String) × Bool :=
  if featureApparmor then ([configureApparmor apparmorProfile], false)
  else ([], true)

/-! ## Capabilities (src/create.go, configureCapabilities lines 283-297) -/

/-- The `configureCapabilities` function (src/create.go lines 283-297):
`none` models a nil `c.Process.Capabilities`; otherwise each permitted name
is lower-cased, a leading `cap_` is stripped, and the names are joined with
spaces; an empty result keeps the sentinel `none`. -/
def configureCapabilities (capabilities : Option (List String)) : String × String :=
  let keepCaps :=
    match capabilities with
    | none => "none"
    | some permitted =>
      let caps := permitted.map (fun c => trimPrefix (strToLower c) "cap_")
      if caps.length > 0 then String.intercalate " " caps else "none"
  ("lxc.cap.keep", keepCaps)

/-! ## Readonly paths (src/create.go, configureReadonlyPaths lines 256-268) -/

/-- One step of Go `path.Clean`: fold a path component onto the stack of
already-cleaned components (head of the list is the most recent component).
Empty and `.` components are dropped; `..` pops a poppable component, is
dropped at the root, and is kept when the path is relative and nothing can
be popped. -/
def cleanStep (rooted : Bool) (st : List String) (comp : String) : List String :=
  if comp = "" ∨ comp = "." then st
  else if comp = ".." then
    match st with
    | [] => if rooted then [] else [".."]
    | top :: rest => if top = ".." then comp :: st else rest
  else comp :: st

/-- Split a character list at `/` separators into path components
(the semantics of Go `strings.Split(path, "/")`). -/
def splitSlashAux : List Char → List Char → List String
  | [], cur => [⟨cur.reverse⟩]
  | c :: cs, cur =>
    if c = '/' then ⟨cur.reverse⟩ :: splitSlashAux cs []
    else splitSlashAux cs (c :: cur)

/-- Go `path.Clean` / `filepath.Clean` on unix: shortest lexical equivalent
of the path. -/
def pathClean (p : String) : String :=
  if p = "" then "."
  else
    let rooted : Bool :=
      match p.data with
      | '/' :: _ => true
      | _ => false
    let st := (splitSlashAux p.data []).foldl (cleanStep rooted) []
    let comps := st.reverse
    if rooted then "/" ++ String.intercalate "/" comps
    else if comps = [] then "." else String.intercalate "/" comps

/-- Go `filepath.Join(a, b)` on unix: the non-empty elements joined with `/`
and cleaned; empty when both are empty. -/
def filepathJoin (a b : String) : String :=
  if a ≠ "" then pathClean (a ++ "/" ++ b)
  else if b ≠ "" then pathClean b
  else ""

/-- The `lxc.mount.entry` value emitted for one readonly path (src/create.go
line 262): `fmt.Sprintf("%s %s %s %s", Join(rootmnt, p), TrimPrefix(p, "/"),
"bind", "bind,ro,optional")`. -/
def readonlyEntry (rootmnt p : String) : String × String :=
  ("lxc.mount.entry",
    filepathJoin rootmnt p ++ " " ++ trimPrefix p "/" ++ " " ++ "bind" ++ " " ++ "bind,ro,optional")

/-- The `configureReadonlyPaths` function (src/create.go lines 256-268):
fails when the `lxc.rootfs.mount` config item is unavailable (empty), and
otherwise emits one bind-mount directive per readonly path, in order. -/
def configureReadonlyPaths (rootmnt : String) (readonlyPaths : List String) :
    Except String (List (String × String)) :=
  if rootmnt = "" then .error "lxc.rootfs.mount unavailable"
  else .ok (readonlyPaths.map (readonlyEntry rootmnt))

/-! ## Masked paths (src/create.go, writeMasked lines 299-316) -/

/-- The `writeMasked` function (src/create.go lines 299-316).  `maskedPaths =
none` models a nil `c.Linux.MaskedPaths`: nothing is written and no error is
raised.  Otherwise the destination is opened with `O_CREATE|O_WRONLY|O_EXCL`,
modelled by `dstExists` (an existing destination makes the open fail), and
one line per path is written.  The result `some content` is the content of
the file written; `none` means no file was created. -/
def writeMasked (dstExists : Bool) (maskedPaths : Option (List String)) :
    Except String (Option String) :=
  match maskedPaths with
  | none => .ok none
  | some paths =>
    if dstExists then .error "open masked.txt: file exists"
    else .ok (some (String.join (paths.map (fun p => p ++ "\n"))))

/-! ## Devices (src/unnamed/part_000) -/

/-- An OCI `specs.LinuxDevice`.  `fileMode`, `uid` and `gid` model the
pointer fields (`nil` is `none`). -/
structure LinuxDevice where
  path : String
  typ : String
  major : Int
  minor : Int
  fileMode : Option Nat := none
  uid : Option Nat := none
  gid : Option Nat := none
deriving DecidableEq, Repr

/-- An OCI `specs.LinuxDeviceCgroup` device-access rule.  `major` and
`minor` model the pointer fields (`nil` is `none`). -/
structure LinuxDeviceCgroup where
  allow : Bool
  typ : String
  major : Option Int
  minor : Option Int
  access : String
deriving DecidableEq, Repr

/-- The part of a container spec that the device functions read and mutate:
`spec.Linux.Devices`, `spec.Linux.Resources.Devices`, and the container
process user. -/
structure DeviceSpec where
  devices : List LinuxDevice
  resourceDevices : List LinuxDeviceCgroup
  uid : Nat
  gid : Nat
deriving DecidableEq, Repr

/-- The `defaultDevices` variable (src/unnamed/part_000 lines 10-21).  Note
that the `/dev/ptmx` entry is commented out in the source (FIXME comment),
so the list has exactly six devices. -/
def defaultDevices : List LinuxDevice :=
  [ { path := "/dev/null", typ := "c", major := 1, minor := 3 },
    { path := "/dev/zero", typ := "c", major := 1, minor := 5 },
    { path := "/dev/full", typ := "c", major := 1, minor := 7 },
    { path := "/dev/random", typ := "c", major := 1, minor := 8 },
    { path := "/dev/urandom", typ := "c", major := 1, minor := 9 },
    { path := "/dev/tty", typ := "c", major := 5, minor := 0 } ]

/-- The `isDeviceEnabled` function (src/unnamed/part_000 lines 23-30):
whether the spec already declares a device with the same path. -/
def isDeviceEnabled (spec : DeviceSpec) (dev : LinuxDevice) : Bool :=
  spec.devices.any (fun specDev => specDev.path = dev.path)

/-- The `addDevicePerms` function (src/unnamed/part_000 lines 40-43):
appends an allow rule to `spec.Linux.Resources.Devices`. -/
def addDevicePerms (spec : DeviceSpec) (devType : String) (major minor : Option Int)
    (access : String) : DeviceSpec :=
  { spec with resourceDevices := spec.resourceDevices ++
      [{ allow := true, typ := devType, major := major, minor := minor, access := access }] }

/-- The `addDevice` function (src/unnamed/part_000 lines 32-38): sets the
device's file mode and owner, appends it to the device list, and grants a
matching cgroup rule. -/
def addDevice (spec : DeviceSpec) (dev : LinuxDevice) (mode : Nat) (uid gid : Nat)
    (access : String) : DeviceSpec :=
  let dev := { dev with fileMode := some mode, uid := some uid, gid := some gid }
  let spec := { spec with devices := spec.devices ++ [dev] }
  addDevicePerms spec dev.typ (some dev.major) (some dev.minor) access

/-- The `ensureDefaultDevices` function (src/unnamed/part_000 lines 50-66):
grants cgroup rules for `/dev/ptmx` (5:2) and the pts slots (88:*), then
adds every default device that the spec does not already declare (checked
against the device list as it grows). -/
def ensureDefaultDevices (spec : DeviceSpec) : DeviceSpec :=
  let mode := 0o666
  let uid := spec.uid
  let gid := spec.gid
  let spec := addDevicePerms spec "c" (some 5) (some 2) "rwm"
  let spec := addDevicePerms spec "c" (some 88) none "rwm"
  defaultDevices.foldl
    (fun s dev => if isDeviceEnabled s dev then s else addDevice s dev mode uid gid "rwm")
    spec

/-! ## Monitor environment (src/runtime.go, keepEnv lines 193-199 and
runStartCmd lines 252-256) -/

/-- The `keepEnv` method (src/runtime.go lines 193-199): starting from the
runtime's (initially empty) environment, append `name=value` for every named
variable whose value in the controller's environment is non-empty. -/
def keepEnv (getenv : String → String) (names : List String) : List String :=
  names.foldl
    (fun env n => if getenv n ≠ "" then env ++ [n ++ "=" ++ getenv n] else env)
    []

/-- The allow-list passed to `keepEnv` by `Runtime.Init`
(src/runtime.go line 114). -/
def monitorEnvNames : List String := ["HOME", "XDG_RUNTIME_DIR", "PATH"]

/-- Go `os.Getenv` over a modelled process environment (a list of
name/value pairs): the first value bound to the name, or the empty string
when the name is unset. -/
def getenvOf (environ : List (String × String)) (n : String) : String :=
  (environ.lookup n).getD ""

/-- The raw `name=value` strings of a modelled process environment, as the
operating system presents them to a child process. -/
def environStrings (environ : List (String × String)) : List String :=
  environ.map (fun nv => nv.1 ++ "=" ++ nv.2)

/-- The environment received by the monitor subprocess: `runStartCmd` sets
`cmd.Env = rt.env` (src/runtime.go line 255), where `rt.env` is populated
exclusively by `keepEnv` on the allow-list (line 114).  `rt.env` starts as
a nil slice and `keepEnv` appends only non-empty values, so when all three
allow-listed variables are empty `rt.env` is still nil — and Go `os/exec`
runs a command with nil `Env` in the parent's full environment, so the
monitor then inherits the controller's entire environment. -/
def monitorProcessEnv (environ : List (String × String)) : List String :=
  let rtEnv := keepEnv (getenvOf environ) monitorEnvNames
  if rtEnv = [] then environStrings environ else rtEnv

/-! ## Spec validation and Create (src/runtime.go checkSpec lines 152-191,
checkConfig lines 145-150; src/create.go Create lines 19-46) -/

/-- OCI namespace types as used by the validation code. -/
inductive NamespaceType
  | pid
  | network
  | mount
  | ipc
  | uts
  | user
  | cgroup
deriving DecidableEq, Repr

/-- An OCI `specs.LinuxNamespace` entry. -/
structure LinuxNamespace where
  typ : NamespaceType
  path : String
deriving DecidableEq, Repr

/-- The container process fields read by `checkSpec`. -/
structure ProcessSpec where
  args : List String
  cwd : String
deriving DecidableEq, Repr

/-- The spec fields read by `checkSpec`: `spec.Root` (with its path),
`spec.Process`, and the namespace list.  `none` models a nil pointer. -/
structure ContainerSpec where
  rootPath : Option String
  process : Option ProcessSpec
  namespaces : List LinuxNamespace
deriving DecidableEq, Repr

/-- Modelled from the spec: `getNamespace` (defined outside src/) selects
the spec's namespace entry of the given type, if any. -/
def getNamespace (t : NamespaceType) (namespaces : List LinuxNamespace) :
    Option LinuxNamespace :=
  namespaces.find? (fun ns => ns.typ = t)

/-- The `checkSpec` method (src/runtime.go lines 152-191).  `shared` models
`isNamespaceSharedWithRuntime` (defined outside src/): whether a namespace
entry refers to one of the controller's own namespaces; the call can fail.
On success the result carries the (cwd-defaulted) spec and whether the
PID-namespace-shared warning was logged. -/
def checkSpec (shared : Option LinuxNamespace → Except String Bool)
    (spec : ContainerSpec) : Except String (ContainerSpec × Bool) :=
  match spec.rootPath with
  | none => .error "spec.Root is nil"
  | some rootPath =>
    if rootPath = "" then .error "empty spec.Root.Path"
    else
      match spec.process with
      | none => .error "spec.Process is nil"
      | some proc =>
        if proc.args = [] then .error "specs.Process.Args is empty"
        else
          let proc := if proc.cwd = "" then { proc with cwd := "/" } else proc
          let spec := { spec with process := some proc }
          match shared (getNamespace .mount spec.namespaces) with
          | .error e => .error ("failed to mount namespace: " ++ e)
          | .ok true => .error "container wants to share the runtimes mount namespace"
          | .ok false =>
            match shared (getNamespace .pid spec.namespaces) with
            | .error e => .error ("failed to check PID namespace: " ++ e)
            | .ok warned => .ok (spec, warned)

/-- The `checkConfig` method (src/runtime.go lines 145-150): a non-empty
container ID, then `checkSpec`. -/
def checkConfig (shared : Option LinuxNamespace → Except String Bool)
    (containerID : String) (spec : ContainerSpec) : Except String (ContainerSpec × Bool) :=
  if containerID = "" then .error "missing container ID"
  else checkSpec shared spec

/-- Results of the effectful steps `Runtime.Create` runs after validation:
`c.create()` (which creates the container runtime directory),
`configureContainer`, and `runStartCmd`. -/
structure CreateEnv where
  createResult : Except String Unit
  configureResult : Except String Unit
  startResult : Except String Unit
deriving Repr

/-- The `Runtime.Create` method (src/create.go lines 19-46), tracking
whether the runtime-directory-creating step `c.create()` was ever reached.
The first component is true exactly when `c.create()` ran (the directory
exists afterward); validation failures return before it. -/
def createContainer (shared : Option LinuxNamespace → Except String Bool)
    (env : CreateEnv) (containerID : String) (spec : ContainerSpec) :
    Bool × Except String Unit :=
  match checkConfig shared containerID spec with
  | .error e => (false, .error e)
  | .ok _ =>
    match env.createResult with
    | .error e => (true, .error ("failed to create container: " ++ e))
    | .ok _ =>
      match env.configureResult with
      | .error e => (true, .error ("failed to configure container: " ++ e))
      | .ok _ =>
        match env.startResult with
        | .error e => (true, .error ("failed to run container process: " ++ e))
        | .ok _ => (true, .ok ())

/-! ## Delete (src/runtime.go, Runtime.Delete lines 366-431) -/

/-- A Go error as classified by `os.IsNotExist`. -/
structure GoError where
  msg : String
  isNotExist : Bool
deriving DecidableEq, Repr

/-- Container states distinguished by the lifecycle code. -/
inductive ContainerState
  | creating
  | created
  | running
  | stopped
deriving DecidableEq, Repr

/-- Result of `Runtime.Load` as observed by `Delete`. -/
inductive LoadResult
  | notExist
  | unloadable (err : String)
  | loaded
deriving DecidableEq, Repr

/-- Results of the effectful steps of `Runtime.Delete`, fixed up front so
that the teardown sequence is a pure function of them. -/
structure DeleteEnv where
  load : LoadResult
  stateResult : Except String ContainerState
  killResult : Except String Unit
  monitorWaitResult : Except String Unit
  destroyResult : Except String Unit
  drainResult : Except GoError Unit
  cgroupDeleteResult : Except GoError Unit
  hooksPresent : Bool
  hookStateResult : Except String Unit
deriving Repr

/-- Which steps of `Runtime.Delete` were executed. -/
structure DeleteTrace where
  killSent : Bool := false
  monitorWaited : Bool := false
  destroyCalled : Bool := false
  drainWaited : Bool := false
  cgroupDeleteCalled : Bool := false
  hooksRun : Bool := false
  runtimeDirRemoved : Bool := false
deriving DecidableEq, Repr

/-- Tail of `Runtime.Delete` after the cgroup was deleted (src/runtime.go
lines 422-430): post-stop hooks (best-effort, but fetching the state for
them can fail) and removal of the runtime directory. -/
def deleteAfterCgroup (env : DeleteEnv) (t : DeleteTrace) :
    DeleteTrace × Except String Unit :=
  if env.hooksPresent then
    match env.hookStateResult with
    | .error e => (t, .error ("failed to get container state: " ++ e))
    | .ok _ =>
      ({ t with hooksRun := true, runtimeDirRemoved := true }, .ok ())
  else ({ t with runtimeDirRemoved := true }, .ok ())

/-- Teardown portion of `Runtime.Delete` (src/runtime.go lines 394-430):
wait for the monitor (failure only logged), destroy the liblxc container
(failure returns), wait for the cgroup to drain (failure only logged),
delete the cgroup (failure returns unless it does not exist), then hooks
and runtime-directory removal. -/
def deleteTeardown (env : DeleteEnv) (t : DeleteTrace) :
    DeleteTrace × Except String Unit :=
  let t := { t with monitorWaited := true }
  let t := { t with destroyCalled := true }
  match env.destroyResult with
  | .error e => (t, .error ("failed to destroy container: " ++ e))
  | .ok _ =>
    let t := { t with drainWaited := true }
    let t := { t with cgroupDeleteCalled := true }
    match env.cgroupDeleteResult with
    | .error e =>
      if e.isNotExist then deleteAfterCgroup env t
      else (t, .error ("failed to delete cgroup: " ++ e.msg))
    | .ok _ => deleteAfterCgroup env t

/-- The `Runtime.Delete` method (src/runtime.go lines 366-431).  A missing
container is an error; an unloadable one has its runtime directory removed
directly.  A loaded container must be stopped unless `force` is set, in
which case it is killed with SIGKILL first; then the teardown sequence
runs. -/
def deleteContainer (env : DeleteEnv) (force : Bool) :
    DeleteTrace × Except String Unit :=
  match env.load with
  | .notExist => ({}, .error "container does not exist")
  | .unloadable _ => ({ runtimeDirRemoved := true }, .ok ())
  | .loaded =>
    match env.stateResult with
    | .error e => ({}, .error e)
    | .ok state =>
      if state = .stopped then deleteTeardown env {}
      else if force then
        match env.killResult with
        | .error e => ({}, .error ("failed to kill container: " ++ e))
        | .ok _ => deleteTeardown env { killSent := true }
      else ({}, .error "container is not not stopped")

/-! ## Helper lemmas -/

theorem contains_eq_true_iff_mem (l : List String) (a : String) :
    l.contains a = true ↔ a ∈ l := by
  simp [List.contains, List.elem_iff]

/-- If the rlimit loop finishes without an error, the normalized names of
its input are pairwise distinct and disjoint from the names already seen. -/
theorem configureRlimitsLoop_none_nodup :
    ∀ (ls : List POSIXRlimit) (seen : List String) (acc : List (String × String)),
      (configureRlimitsLoop ls seen acc).1 = none →
      (ls.map rlimitName).Nodup ∧ ∀ n ∈ ls.map rlimitName, n ∉ seen := by
  intro ls
  induction ls with
  | nil => intro seen acc _; simp
  | cons l rest ih =>
    intro seen acc h
    by_cases hc : seen.contains (rlimitName l) = true
    · rw [configureRlimitsLoop, if_pos hc] at h
      simp at h
    · rw [configureRlimitsLoop, if_neg hc] at h
      obtain ⟨hnodup, hfresh⟩ :=
        ih (seen ++ [rlimitName l]) (acc ++ [rlimitDirective l]) h
      refine ⟨?_, ?_⟩
      · simp only [List.map_cons, List.nodup_cons]
        refine ⟨fun hmem => ?_, hnodup⟩
        have := hfresh _ hmem
        simp [List.mem_append] at this
      · intro n hn
        simp only [List.map_cons, List.mem_cons] at hn
        rcases hn with rfl | hn
        · exact fun hmem => hc ((contains_eq_true_iff_mem seen _).mpr hmem)
        · exact fun hmem => hfresh n hn (by simp [List.mem_append, hmem])

/-- The directives accumulated by the rlimit loop are those for a
duplicate-free prefix of its input whose names are fresh with respect to
the seen list. -/
theorem configureRlimitsLoop_emits :
    ∀ (ls : List POSIXRlimit) (seen : List String) (acc : List (String × String)),
      ∃ pre suf, ls = pre ++ suf ∧
        (configureRlimitsLoop ls seen acc).2 = acc ++ pre.map rlimitDirective ∧
        (∀ n ∈ pre.map rlimitName, n ∉ seen) ∧ (pre.map rlimitName).Nodup := by
  intro ls
  induction ls with
  | nil =>
    intro seen acc
    exact ⟨[], [], rfl, by simp [configureRlimitsLoop], by simp, by simp⟩
  | cons l rest ih =>
    intro seen acc
    by_cases hc : seen.contains (rlimitName l) = true
    · refine ⟨[], l :: rest, rfl, ?_, by simp, by simp⟩
      rw [configureRlimitsLoop, if_pos hc]
      simp
    · obtain ⟨pre, suf, hsplit, hemit, hfresh, hnodup⟩ :=
        ih (seen ++ [rlimitName l]) (acc ++ [rlimitDirective l])
      refine ⟨l :: pre, suf, by rw [hsplit]; rfl, ?_, ?_, ?_⟩
      · rw [configureRlimitsLoop, if_neg hc, hemit]
        simp
      · intro n hn
        simp only [List.map_cons, List.mem_cons] at hn
        rcases hn with rfl | hn
        · exact fun hmem => hc ((contains_eq_true_iff_mem seen _).mpr hmem)
        · exact fun hmem => hfresh n hn (by simp [List.mem_append, hmem])
      · simp only [List.map_cons, List.nodup_cons]
        refine ⟨fun hmem => ?_, hnodup⟩
        have := hfresh _ hmem
        simp [List.mem_append] at this

/-! ## Claim C1 -/

/-- Concrete spec rlimits with duplicate kinds: `RLIMIT_NOFILE` and
`nofile` normalize to the same name. -/
def c1DuplicateRlimits : List POSIXRlimit :=
  [ { type := "RLIMIT_NOFILE", soft := 1, hard := 2 },
    { type := "nofile", soft := 3, hard := 4 } ]

/-- C1 counterexample: a spec with duplicate limit kinds does produce a
configuration error, but the directive set is NOT free of limit entries:
the directive for the first occurrence was already emitted when the
duplicate is detected. -/
theorem configureRlimits_duplicate_counterexample :
    ¬ (c1DuplicateRlimits.map rlimitName).Nodup ∧
    (configureRlimits c1DuplicateRlimits).1 = some "duplicate resource limit nofile" ∧
    (configureRlimits c1DuplicateRlimits).2 = [("lxc.prlimit.nofile", "1:2")] ∧
    (configureRlimits c1DuplicateRlimits).2 ≠ [] := by
  exact ⟨by decide, by decide, by decide, by decide⟩

/-- C1 (amended): for every spec with duplicate limit kinds
(case-insensitive, `RLIMIT_`-prefix-insensitive), configuration fails with
an error, and the limit directives emitted are exactly one `lxc.prlimit.*`
directive per limit of a duplicate-free prefix of the limit list — in
particular none is emitted for the duplicate occurrence itself. -/
theorem configureRlimits_duplicate_amended (rlimits : List POSIXRlimit)
    (hdup : ¬ (rlimits.map rlimitName).Nodup) :
    (configureRlimits rlimits).1.isSome = true ∧
    ∃ pre suf, rlimits = pre ++ suf ∧ (pre.map rlimitName).Nodup ∧
      (configureRlimits rlimits).2 = pre.map rlimitDirective := by
  constructor
  · cases hres : (configureRlimits rlimits).1 with
    | none =>
      exact absurd (configureRlimitsLoop_none_nodup rlimits [] [] hres).1 hdup
    | some e => rfl
  · obtain ⟨pre, suf, hsplit, hemit, _, hnodup⟩ := configureRlimitsLoop_emits rlimits [] []
    exact ⟨pre, suf, hsplit, hnodup, by simpa using hemit⟩

/-- C1 witness: the amended theorem applied to the concrete duplicate
rlimit list. -/
theorem configureRlimits_duplicate_amended_witness :
    ¬ (c1DuplicateRlimits.map rlimitName).Nodup ∧
    ((configureRlimits c1DuplicateRlimits).1.isSome = true ∧
      ∃ pre suf, c1DuplicateRlimits = pre ++ suf ∧ (pre.map rlimitName).Nodup ∧
        (configureRlimits c1DuplicateRlimits).2 = pre.map rlimitDirective) :=
  ⟨by decide, configureRlimits_duplicate_amended c1DuplicateRlimits (by decide)⟩

/-! ## Claim C2 -/

/-- A delete environment where every step succeeds except the liblxc
backend destroy, which fails. -/
def c2DestroyFailEnv : DeleteEnv :=
  { load := .loaded,
    stateResult := .ok .stopped,
    killResult := .ok (),
    monitorWaitResult := .error "monitor wait failed",
    destroyResult := .error "destroy failed",
    drainResult := .ok (),
    cgroupDeleteResult := .ok (),
    hooksPresent := true,
    hookStateResult := .ok () }

/-- C2 counterexample: when the backend destroy step fails, teardown does
NOT proceed through the remaining steps — the cgroup-drain wait, cgroup
removal, and post-stop hooks are skipped and the runtime directory is not
removed; Delete returns the destroy error. -/
theorem delete_destroy_shortcircuits_counterexample :
    (deleteContainer c2DestroyFailEnv false).1.destroyCalled = true ∧
    (deleteContainer c2DestroyFailEnv false).1.drainWaited = false ∧
    (deleteContainer c2DestroyFailEnv false).1.cgroupDeleteCalled = false ∧
    (deleteContainer c2DestroyFailEnv false).1.hooksRun = false ∧
    (deleteContainer c2DestroyFailEnv false).1.runtimeDirRemoved = false ∧
    (deleteContainer c2DestroyFailEnv false).2 =
      .error "failed to destroy container: destroy failed" :=
  ⟨rfl, rfl, rfl, rfl, rfl, rfl⟩

/-- C2 (amended): during Delete of a loadable stopped container, failures
of the monitor-exit wait and of the cgroup-drain wait are logged and
teardown proceeds through every remaining step, ending with removal of the
runtime directory; but a failure of the backend destroy (and likewise a
cgroup-removal failure other than not-exist) aborts Delete with an error
before the runtime directory is removed. -/
theorem delete_besteffort_amended (env : DeleteEnv)
    (hload : env.load = .loaded)
    (hstate : env.stateResult = .ok .stopped) :
    ((env.destroyResult = .ok () →
      (env.cgroupDeleteResult = .ok () ∨
        ∃ e, env.cgroupDeleteResult = .error e ∧ e.isNotExist = true) →
      env.hookStateResult = .ok () →
      (deleteContainer env false).1.monitorWaited = true ∧
      (deleteContainer env false).1.drainWaited = true ∧
      (deleteContainer env false).1.runtimeDirRemoved = true ∧
      (deleteContainer env false).2 = .ok ()) ∧
     (∀ e, env.destroyResult = .error e →
      (deleteContainer env false).1.drainWaited = false ∧
      (deleteContainer env false).1.runtimeDirRemoved = false ∧
      (deleteContainer env false).2 = .error ("failed to destroy container: " ++ e))) := by
  have hdel : deleteContainer env false = deleteTeardown env {} := by
    unfold deleteContainer
    rw [hload, hstate]
    simp
  constructor
  · intro hdo hcg hhk
    rcases hcg with hcg | ⟨e, hcg, hne⟩
    · cases hhp : env.hooksPresent <;>
        simp [hdel, deleteTeardown, deleteAfterCgroup, hdo, hcg, hhp, hhk]
    · cases hhp : env.hooksPresent <;>
        simp [hdel, deleteTeardown, deleteAfterCgroup, hdo, hcg, hne, hhp, hhk]
  · intro e he
    simp [hdel, deleteTeardown, he]

/-- A delete environment where the monitor wait and the cgroup-drain wait
fail but the remaining steps succeed. -/
def c2BestEffortEnv : DeleteEnv :=
  { load := .loaded,
    stateResult := .ok .stopped,
    killResult := .ok (),
    monitorWaitResult := .error "monitor wait failed",
    destroyResult := .ok (),
    drainResult := .error { msg := "drain failed", isNotExist := false },
    cgroupDeleteResult := .ok (),
    hooksPresent := true,
    hookStateResult := .ok () }

/-- C2 witness: the amended theorem applied to a run whose monitor wait and
drain wait fail; teardown still removes the runtime directory. -/
theorem delete_besteffort_amended_witness :
    (deleteContainer c2BestEffortEnv false).1.runtimeDirRemoved = true ∧
    (deleteContainer c2BestEffortEnv false).2 = .ok () :=
  have h := delete_besteffort_amended c2BestEffortEnv rfl rfl
  ⟨(h.1 rfl (Or.inl rfl) rfl).2.2.1, (h.1 rfl (Or.inl rfl) rfl).2.2.2⟩

/-! ## Claim C3 -/

/-- C3 counterexample: with the AppArmor feature disabled and the spec
profile `foo`, the compiler emits NO `lxc.apparmor.profile` directive at
all (in particular it is not forced to `unconfined`); only the warning is
logged. -/
theorem apparmor_disabled_counterexample :
    (apparmorDirectives false "foo").1 = [] ∧
    ("lxc.apparmor.profile", "unconfined") ∉ (apparmorDirectives false "foo").1 ∧
    (apparmorDirectives false "foo").2 = true :=
  ⟨rfl, by decide, rfl⟩

/-- C3 (amended): when the AppArmor feature flag is disabled the compiler
emits no AppArmor profile directive and logs a warning (liblxc's default
applies); when the flag is enabled, the profile directive is the spec's
profile name, defaulting to `unconfined` when the spec leaves it empty. -/
theorem apparmor_directives_amended (p : String) :
    apparmorDirectives false p = ([], true) ∧
    apparmorDirectives true p =
      ([("lxc.apparmor.profile", if p = "" then "unconfined" else p)], false) := by
  constructor
  · rfl
  · by_cases hp : p = "" <;> simp [apparmorDirectives, configureApparmor, hp]

/-! ## Claim C4 -/

/-- A container spec declaring zero devices. -/
def c4EmptySpec : DeviceSpec :=
  { devices := [], resourceDevices := [], uid := 0, gid := 0 }

/-- A container spec that already declares `/dev/null`. -/
def c4NullSpec : DeviceSpec :=
  { devices := [{ path := "/dev/null", typ := "c", major := 1, minor := 3 }],
    resourceDevices := [], uid := 0, gid := 0 }

/-- C4 counterexample: for a spec declaring zero devices, the merged device
list consists of null, zero, full, random, urandom and tty only — neither
`/dev/ptmx` nor a pts slot is added as a device (they receive only cgroup
rules), so the claimed full default device set is not produced. -/
theorem ensureDefaultDevices_counterexample :
    (ensureDefaultDevices c4EmptySpec).devices.map (fun d => d.path) =
      ["/dev/null", "/dev/zero", "/dev/full", "/dev/random", "/dev/urandom", "/dev/tty"] ∧
    (∀ d ∈ (ensureDefaultDevices c4EmptySpec).devices, d.path ≠ "/dev/ptmx") ∧
    (∀ d ∈ (ensureDefaultDevices c4EmptySpec).devices, d.path ≠ "/dev/pts/0") :=
  ⟨by decide, by decide, by decide⟩

/-- The fold that adds missing default devices never adds a device whose
path the spec already has, so the count of an already-declared path is
unchanged. -/
theorem foldAddDevice_countP (p : String) (m u g : Nat) (a : String) :
    ∀ (ds : List LinuxDevice) (s : DeviceSpec),
      s.devices.any (fun d => d.path == p) = true →
      ((ds.foldl (fun s dev => if isDeviceEnabled s dev then s
          else addDevice s dev m u g a) s).devices.countP (fun d => d.path == p)) =
        s.devices.countP (fun d => d.path == p) := by
  intro ds
  induction ds with
  | nil => intro s _; rfl
  | cons dev rest ih =>
    intro s hp
    by_cases he : isDeviceEnabled s dev = true
    · rw [List.foldl_cons, if_pos he]
      exact ih s hp
    · have hne : dev.path ≠ p := by
        intro hdp
        apply he
        rcases List.any_eq_true.mp hp with ⟨d, hd, hdb⟩
        have hdpath : d.path = dev.path := by
          rw [hdp]
          exact beq_iff_eq.mp hdb
        exact List.any_eq_true.mpr ⟨d, hd, by simp [hdpath]⟩
      have hdev : (addDevice s dev m u g a).devices =
          s.devices ++ [{ dev with fileMode := some m, uid := some u, gid := some g }] := rfl
      have hp2 : (addDevice s dev m u g a).devices.any (fun d => d.path == p) = true := by
        rw [hdev, List.any_append, hp]
        rfl
      rw [List.foldl_cons, if_neg he, ih _ hp2, hdev, List.countP_append]
      simp [List.countP_cons, beq_eq_false_iff_ne.mpr hne]

/-- C4 (amended): for a spec declaring zero devices, compilation produces
the device set null, zero, full, random, urandom and tty, each with file
mode 0666, the process owner, and a matching `rwm` cgroup rule for its
type and major/minor; `/dev/ptmx` (5:2) and the pts slots (88:*) receive
cgroup device-access rules only, without device entries; and for any spec
that already declares `/dev/null`, the merged device list contains no
duplicate `/dev/null` entry (deduplication is by path). -/
theorem ensureDefaultDevices_amended (s : DeviceSpec)
    (hone : s.devices.countP (fun d => d.path == "/dev/null") = 1) :
    (ensureDefaultDevices c4EmptySpec).devices =
      [ { path := "/dev/null", typ := "c", major := 1, minor := 3,
          fileMode := some 438, uid := some 0, gid := some 0 },
        { path := "/dev/zero", typ := "c", major := 1, minor := 5,
          fileMode := some 438, uid := some 0, gid := some 0 },
        { path := "/dev/full", typ := "c", major := 1, minor := 7,
          fileMode := some 438, uid := some 0, gid := some 0 },
        { path := "/dev/random", typ := "c", major := 1, minor := 8,
          fileMode := some 438, uid := some 0, gid := some 0 },
        { path := "/dev/urandom", typ := "c", major := 1, minor := 9,
          fileMode := some 438, uid := some 0, gid := some 0 },
        { path := "/dev/tty", typ := "c", major := 5, minor := 0,
          fileMode := some 438, uid := some 0, gid := some 0 } ] ∧
    (ensureDefaultDevices c4EmptySpec).resourceDevices =
      [ { allow := true, typ := "c", major := some 5, minor := some 2, access := "rwm" },
        { allow := true, typ := "c", major := some 88, minor := none, access := "rwm" },
        { allow := true, typ := "c", major := some 1, minor := some 3, access := "rwm" },
        { allow := true, typ := "c", major := some 1, minor := some 5, access := "rwm" },
        { allow := true, typ := "c", major := some 1, minor := some 7, access := "rwm" },
        { allow := true, typ := "c", major := some 1, minor := some 8, access := "rwm" },
        { allow := true, typ := "c", major := some 1, minor := some 9, access := "rwm" },
        { allow := true, typ := "c", major := some 5, minor := some 0, access := "rwm" } ] ∧
    (ensureDefaultDevices s).devices.countP (fun d => d.path == "/dev/null") = 1 := by
  refine ⟨by decide, by decide, ?_⟩
  have hany : s.devices.any (fun d => d.path == "/dev/null") = true := by
    apply List.any_eq_true.mpr
    have hpos : 0 < s.devices.countP (fun d => d.path == "/dev/null") := by
      rw [hone]; exact Nat.zero_lt_one
    exact List.countP_pos_iff.mp hpos
  have h := foldAddDevice_countP "/dev/null" 438 s.uid s.gid "rwm" defaultDevices
    (addDevicePerms (addDevicePerms s "c" (some 5) (some 2) "rwm") "c" (some 88) none "rwm")
    hany
  calc (ensureDefaultDevices s).devices.countP (fun d => d.path == "/dev/null")
      = s.devices.countP (fun d => d.path == "/dev/null") := h
    _ = 1 := hone

/-- C4 witness: the amended theorem applied to the spec that already
declares `/dev/null`. -/
theorem ensureDefaultDevices_amended_witness :
    c4NullSpec.devices.countP (fun d => d.path == "/dev/null") = 1 ∧
    (ensureDefaultDevices c4NullSpec).devices.countP (fun d => d.path == "/dev/null") = 1 :=
  ⟨by decide, (ensureDefaultDevices_amended c4NullSpec (by decide)).2.2⟩

/-! ## Claim C5 -/

/-- C5: readonly-path compilation emits exactly one bind-mount directive
per listed path, in the list's order, with mount source the rootfs mount
point joined with the path, in-container target the path with its leading
`/` stripped, and options `bind,ro,optional`; it fails exactly when the
rootfs mount point directive is unavailable (empty). -/
theorem configureReadonlyPaths_spec (rootmnt : String) (ps : List String) :
    (rootmnt = "" →
      configureReadonlyPaths rootmnt ps = .error "lxc.rootfs.mount unavailable") ∧
    (rootmnt ≠ "" →
      configureReadonlyPaths rootmnt ps = .ok (ps.map (readonlyEntry rootmnt))) ∧
    readonlyEntry "/rootfs" "/proc/sys" =
      ("lxc.mount.entry", "/rootfs/proc/sys proc/sys bind bind,ro,optional") := by
  refine ⟨fun h => ?_, fun h => ?_, by decide⟩
  · simp [configureReadonlyPaths, h]
  · simp [configureReadonlyPaths, h]

/-- C5 witness: the theorem applied with an available and an unavailable
rootfs mount point. -/
theorem configureReadonlyPaths_spec_witness :
    configureReadonlyPaths "" ["/proc/sys"] = .error "lxc.rootfs.mount unavailable" ∧
    configureReadonlyPaths "/rootfs" ["/proc/sys"] =
      .ok (["/proc/sys"].map (readonlyEntry "/rootfs")) :=
  ⟨(configureReadonlyPaths_spec "" ["/proc/sys"]).1 rfl,
   (configureReadonlyPaths_spec "/rootfs" ["/proc/sys"]).2.1 (by decide)⟩

/-! ## Claim C6 -/

/-- C6: capability normalization lower-cases each permitted name, strips a
leading `cap_`, and joins the names with spaces into the kept-capabilities
directive; `{"CAP_KILL", "cap_chown"}` yields `kill chown`, and a nil
capabilities object or an empty permitted list yields the sentinel
`none`. -/
theorem configureCapabilities_normalizes (caps : List String) (h : caps ≠ []) :
    configureCapabilities (some caps) =
      ("lxc.cap.keep",
        String.intercalate " " (caps.map (fun c => trimPrefix (strToLower c) "cap_"))) ∧
    configureCapabilities (some ["CAP_KILL", "cap_chown"]) = ("lxc.cap.keep", "kill chown") ∧
    configureCapabilities none = ("lxc.cap.keep", "none") ∧
    configureCapabilities (some []) = ("lxc.cap.keep", "none") := by
  refine ⟨?_, by decide, rfl, rfl⟩
  have hlen : 0 < (caps.map (fun c => trimPrefix (strToLower c) "cap_")).length := by
    rw [List.length_map]
    exact List.length_pos.mpr h
  show ("lxc.cap.keep",
      if (caps.map (fun c => trimPrefix (strToLower c) "cap_")).length > 0
      then String.intercalate " " (caps.map (fun c => trimPrefix (strToLower c) "cap_"))
      else "none") = _
  rw [if_pos hlen]

/-- C6 witness: the theorem applied to the permitted set of the claim. -/
theorem configureCapabilities_normalizes_witness :
    configureCapabilities (some ["CAP_KILL", "cap_chown"]) =
      ("lxc.cap.keep",
        String.intercalate " "
          (["CAP_KILL", "cap_chown"].map (fun c => trimPrefix (strToLower c) "cap_"))) :=
  (configureCapabilities_normalizes ["CAP_KILL", "cap_chown"] (by decide)).1

/-! ## Claim C7 -/

/-- C7: a spec sharing the controller's mount namespace fails validation
and Create returns before the runtime directory is created; a spec passing
the nil-checks that shares only the controller's PID namespace passes
validation with the PID warning logged. -/
theorem create_namespace_validation (shared : Option LinuxNamespace → Except String Bool)
    (env : CreateEnv) (containerID : String) (spec : ContainerSpec) :
    (shared (getNamespace .mount spec.namespaces) = .ok true →
      (createContainer shared env containerID spec).1 = false ∧
      ∃ e, (createContainer shared env containerID spec).2 = .error e) ∧
    (∀ rp proc, spec.rootPath = some rp → rp ≠ "" → spec.process = some proc →
      proc.args ≠ [] →
      shared (getNamespace .mount spec.namespaces) = .ok false →
      shared (getNamespace .pid spec.namespaces) = .ok true →
      ∃ spec2, checkSpec shared spec = .ok (spec2, true)) := by
  constructor
  · intro hmnt
    have hno : ∀ r, checkSpec shared spec ≠ .ok r := by
      intro r hok
      unfold checkSpec at hok
      cases hroot : spec.rootPath with
      | none => rw [hroot] at hok; exact absurd hok (by simp)
      | some rp =>
        simp only [hroot] at hok
        by_cases hrp : rp = ""
        · simp [hrp] at hok
        · rw [if_neg hrp] at hok
          cases hproc : spec.process with
          | none => simp only [hproc] at hok; simp at hok
          | some pr =>
            simp only [hproc] at hok
            by_cases hargs : pr.args = []
            · simp [hargs] at hok
            · rw [if_neg hargs] at hok
              simp only [hmnt] at hok
              simp at hok
    cases hcc : checkConfig shared containerID spec with
    | error e =>
      refine ⟨?_, e, ?_⟩ <;> simp [createContainer, hcc]
    | ok r =>
      exfalso
      unfold checkConfig at hcc
      by_cases hid : containerID = ""
      · simp [hid] at hcc
      · rw [if_neg hid] at hcc
        exact hno r hcc
  · intro rp proc hroot hrp hproc hargs hmnt hpid
    refine ⟨{ spec with
              process := some (if proc.cwd = "" then { proc with cwd := "/" } else proc) }, ?_⟩
    unfold checkSpec
    simp only [hroot, hproc]
    rw [if_neg hrp, if_neg hargs]
    simp only [hroot, hmnt, hpid]

/-- Environment for the Create model in which every post-validation step
succeeds. -/
def c7Env : CreateEnv :=
  { createResult := .ok (), configureResult := .ok (), startResult := .ok () }

/-- A namespace-sharing oracle under which every namespace entry is shared
with the controller. -/
def c7SharedAll : Option LinuxNamespace → Except String Bool := fun _ => .ok true

/-- A namespace-sharing oracle under which exactly the PID namespace
entries are shared with the controller. -/
def c7SharedPid : Option LinuxNamespace → Except String Bool := fun ns =>
  match ns with
  | some n => .ok (decide (n.typ = NamespaceType.pid))
  | none => .ok false

/-- A spec whose namespace list shares the controller's mount namespace
under `c7SharedAll`. -/
def c7SpecMnt : ContainerSpec :=
  { rootPath := some "/rootfs",
    process := some { args := ["sh"], cwd := "/" },
    namespaces := [{ typ := .mount, path := "/proc/1/ns/mnt" }] }

/-- A spec sharing only the controller's PID namespace under
`c7SharedPid`. -/
def c7SpecPid : ContainerSpec :=
  { rootPath := some "/rootfs",
    process := some { args := ["sh"], cwd := "/" },
    namespaces := [{ typ := .pid, path := "/proc/1/ns/pid" }] }

/-- C7 witness: the theorem applied to a mount-namespace-sharing spec (no
runtime directory, an error) and to a PID-namespace-sharing spec (accepted
with the warning). -/
theorem create_namespace_validation_witness :
    ((createContainer c7SharedAll c7Env "c1" c7SpecMnt).1 = false ∧
      ∃ e, (createContainer c7SharedAll c7Env "c1" c7SpecMnt).2 = .error e) ∧
    (∃ spec2, checkSpec c7SharedPid c7SpecPid = .ok (spec2, true)) :=
  ⟨(create_namespace_validation c7SharedAll c7Env "c1" c7SpecMnt).1 rfl,
   (create_namespace_validation c7SharedPid c7Env "c1" c7SpecPid).2 "/rootfs"
     { args := ["sh"], cwd := "/" } rfl (by decide) rfl (by decide) rfl rfl⟩

/-! ## Claim C8 -/

/-- C8: Delete on a stopped container with `force = false` runs teardown
without killing and removes the runtime directory; Delete on a non-stopped
container with `force = false` fails with a state error and leaves the
runtime directory intact; Delete on a non-stopped container with
`force = true` first sends SIGKILL and then proceeds through teardown. -/
theorem delete_state_logic (env : DeleteEnv) (hload : env.load = .loaded) :
    ((env.stateResult = .ok .stopped → env.destroyResult = .ok () →
      env.cgroupDeleteResult = .ok () → env.hookStateResult = .ok () →
      (deleteContainer env false).1.killSent = false ∧
      (deleteContainer env false).1.runtimeDirRemoved = true ∧
      (deleteContainer env false).2 = .ok ()) ∧
     (∀ st, env.stateResult = .ok st → st ≠ .stopped →
      (deleteContainer env false).1.runtimeDirRemoved = false ∧
      (deleteContainer env false).2 = .error "container is not not stopped") ∧
     (∀ st, env.stateResult = .ok st → st ≠ .stopped → env.killResult = .ok () →
      env.destroyResult = .ok () → env.cgroupDeleteResult = .ok () →
      env.hookStateResult = .ok () →
      (deleteContainer env true).1.killSent = true ∧
      (deleteContainer env true).1.runtimeDirRemoved = true ∧
      (deleteContainer env true).2 = .ok ())) := by
  refine ⟨fun hst hdo hcg hhk => ?_, fun st hst hne => ?_, fun st hst hne hkill hdo hcg hhk => ?_⟩
  · cases hhp : env.hooksPresent <;>
      simp [deleteContainer, hload, hst, deleteTeardown, deleteAfterCgroup, hdo, hcg, hhp, hhk]
  · simp [deleteContainer, hload, hst, hne]
  · cases hhp : env.hooksPresent <;>
      simp [deleteContainer, hload, hst, hne, hkill, deleteTeardown, deleteAfterCgroup,
        hdo, hcg, hhp, hhk]

/-- A delete environment for a running container whose teardown steps all
succeed. -/
def c8RunningEnv : DeleteEnv :=
  { load := .loaded,
    stateResult := .ok .running,
    killResult := .ok (),
    monitorWaitResult := .ok (),
    destroyResult := .ok (),
    drainResult := .ok (),
    cgroupDeleteResult := .ok (),
    hooksPresent := true,
    hookStateResult := .ok () }

/-- A delete environment for a stopped container whose teardown steps all
succeed. -/
def c8StoppedEnv : DeleteEnv :=
  { c8RunningEnv with stateResult := .ok .stopped }

/-- C8 witness: the theorem applied to stopped/force=false (removed),
running/force=false (state error, directory intact) and running/force=true
(killed, removed). -/
theorem delete_state_logic_witness :
    ((deleteContainer c8StoppedEnv false).1.runtimeDirRemoved = true ∧
      (deleteContainer c8StoppedEnv false).2 = .ok ()) ∧
    ((deleteContainer c8RunningEnv false).1.runtimeDirRemoved = false ∧
      (deleteContainer c8RunningEnv false).2 = .error "container is not not stopped") ∧
    ((deleteContainer c8RunningEnv true).1.killSent = true ∧
      (deleteContainer c8RunningEnv true).1.runtimeDirRemoved = true ∧
      (deleteContainer c8RunningEnv true).2 = .ok ()) :=
  have hs := delete_state_logic c8StoppedEnv rfl
  have hr := delete_state_logic c8RunningEnv rfl
  ⟨⟨(hs.1 rfl rfl rfl rfl).2.1, (hs.1 rfl rfl rfl rfl).2.2⟩,
   hr.2.1 .running rfl (by decide),
   hr.2.2 .running rfl (by decide) rfl rfl rfl rfl⟩

/-! ## Claim C9 -/

/-- C9 counterexample: two controller environments that agree on HOME,
XDG_RUNTIME_DIR and PATH (all three unset) but differ on a secret variable
give the monitor different environments — with the three allow-listed
variables empty, `rt.env` stays nil and the monitor inherits the
controller's entire environment, secret included. -/
theorem monitorProcessEnv_leak_counterexample :
    getenvOf [] "HOME" = getenvOf [("SECRET_TOKEN", "leaky")] "HOME" ∧
    getenvOf [] "XDG_RUNTIME_DIR" = getenvOf [("SECRET_TOKEN", "leaky")] "XDG_RUNTIME_DIR" ∧
    getenvOf [] "PATH" = getenvOf [("SECRET_TOKEN", "leaky")] "PATH" ∧
    monitorProcessEnv [] ≠ monitorProcessEnv [("SECRET_TOKEN", "leaky")] ∧
    "SECRET_TOKEN=leaky" ∈ monitorProcessEnv [("SECRET_TOKEN", "leaky")] := by
  refine ⟨rfl, rfl, rfl, by decide, by decide⟩

/-- C9 (amended): whenever at least one of HOME, XDG_RUNTIME_DIR and PATH
is non-empty in the controller's environment, the monitor subprocess
environment is determined only by those three variables: any two controller
environments agreeing on them produce the same subprocess environment.
When all three are empty or unset, the runtime's environment list remains
nil and the monitor subprocess inherits the controller's entire
environment. -/
theorem monitorProcessEnv_allowlist_amended (e1 e2 : List (String × String))
    (hHome : getenvOf e1 "HOME" = getenvOf e2 "HOME")
    (hXdg : getenvOf e1 "XDG_RUNTIME_DIR" = getenvOf e2 "XDG_RUNTIME_DIR")
    (hPath : getenvOf e1 "PATH" = getenvOf e2 "PATH")
    (hsome : getenvOf e1 "HOME" ≠ "" ∨ getenvOf e1 "XDG_RUNTIME_DIR" ≠ "" ∨
      getenvOf e1 "PATH" ≠ "") :
    monitorProcessEnv e1 = monitorProcessEnv e2 ∧
    (∀ environ, keepEnv (getenvOf environ) monitorEnvNames = [] →
      monitorProcessEnv environ = environStrings environ) := by
  have hk : keepEnv (getenvOf e1) monitorEnvNames = keepEnv (getenvOf e2) monitorEnvNames := by
    simp [keepEnv, monitorEnvNames, hHome, hXdg, hPath]
  have hne : keepEnv (getenvOf e1) monitorEnvNames ≠ [] := by
    by_cases h1 : getenvOf e1 "HOME" = "" <;>
      by_cases h2 : getenvOf e1 "XDG_RUNTIME_DIR" = "" <;>
        by_cases h3 : getenvOf e1 "PATH" = "" <;>
          simp [keepEnv, monitorEnvNames, h1, h2, h3] at hsome ⊢
  constructor
  · simp only [monitorProcessEnv]
    rw [if_neg hne, if_neg (hk ▸ hne), hk]
  · intro environ hnil
    simp only [monitorProcessEnv]
    rw [if_pos hnil]

/-- C9 witness: the amended theorem applied to two environments that agree
on an allow-list with HOME set and differ on a secret variable. -/
theorem monitorProcessEnv_allowlist_amended_witness :
    monitorProcessEnv [("HOME", "/root"), ("SECRET_TOKEN", "leaky")] =
      monitorProcessEnv [("HOME", "/root")] :=
  (monitorProcessEnv_allowlist_amended [("HOME", "/root"), ("SECRET_TOKEN", "leaky")]
    [("HOME", "/root")] (by decide) (by decide) (by decide) (Or.inl (by decide))).1

/-! ## Claim C10 -/

/-- C10: the masked-paths side file is written only when the spec's
masked-paths list is non-nil: a nil list writes no file; a non-nil list
(including an empty one) creates the file with exclusive creation, one line
per path; and a pre-existing file at the destination is an error. -/
theorem writeMasked_spec (dstExists : Bool) (paths : List String) :
    writeMasked dstExists none = .ok none ∧
    writeMasked false (some paths) =
      .ok (some (String.join (paths.map (fun p => p ++ "\n")))) ∧
    writeMasked false (some []) = .ok (some "") ∧
    writeMasked true (some paths) = .error "open masked.txt: file exists" ∧
    writeMasked false (some ["/proc/kcore", "/proc/keys"]) =
      .ok (some "/proc/kcore\n/proc/keys\n") :=
  ⟨rfl, rfl, rfl, rfl, rfl⟩

end Lxcri
